import Mathlib

/-!
Shallow embedding of the Kybernetix SDK feature-flag manager
(`src/provider.ts`, types from `src/types/provider.ts`) and proofs of the
specified properties.

The manager is a small state machine: a local cache of features
(`declaredFeatures`), an `inited` flag and an interval handle, together with
two HTTP operations (fetch-all-features, create-feature).  Methods are
modelled as explicit state transformers; the network is passed in as the
`HttpResponse` the single awaited `fetch` of the operation resolves with, and
each operation additionally reports the list of HTTP requests it issued.
JavaScript dynamic behaviour that matters to the properties is modelled
explicitly: optional / falsy configuration keys are `Option String` with a
JS-falsiness test, a cache slot may hold either the `{options, meta}` shape
the field is declared with or the `{times, enabled}` shape the server
returns, and reading `.meta.enabled` off the latter raises a `TypeError`.
-/

namespace Kybernetix

/-- A validity time window (`IDeclareFeatureTime`): `start` and optional
`end` timestamps, never interpreted locally, so modelled as integers. -/
structure IDeclareFeatureTime where
  start : Int
  «end» : Option Int
deriving DecidableEq, Repr

/-- `IDeclareFeatureOptions`: what a caller declares about a feature. -/
structure IDeclareFeatureOptions where
  times : List IDeclareFeatureTime
deriving DecidableEq, Repr

/-- `IDeclareFeatureMeta`: server-computed state of a feature. -/
structure IDeclareFeatureMeta where
  enabled : Bool
deriving DecidableEq, Repr

/-- `ComposedDeclareFeatureOptions = IDeclareFeatureOptions & IDeclareFeatureMeta`:
the merged `{times, enabled}` record the service returns per feature. -/
structure ComposedDeclareFeatureOptions where
  times : List IDeclareFeatureTime
  enabled : Bool
deriving DecidableEq, Repr

/-- `IManagerOptions`.  `publicKey` is required by the static interface but
the code guards against it being absent at runtime (and the test suite passes
`undefined`), so all three keys are modelled as `Option String`. -/
structure IManagerOptions where
  apiUrl : Option String := none
  publicKey : Option String := none
  privateKey : Option String := none
deriving DecidableEq, Repr

/-- JS falsiness of an optional string option (`!x`): `undefined`/`null` and
the empty string are falsy. -/
def jsFalsy : Option String → Bool
  | none => true
  | some s => s = ""

/-- The default API base URL from the constructor:
`{ apiUrl: 'https://api.platform.kybernetix.ru', ...opts }`. -/
def defaultApiUrl : String := "https://api.platform.kybernetix.ru"

/-- The constructor's option merge `{ apiUrl: DEFAULT, ...opts }`: the
default `apiUrl` survives only when the caller supplied none. -/
def mergeOptions (opts : IManagerOptions) : IManagerOptions :=
  { opts with apiUrl := some (opts.apiUrl.getD defaultApiUrl) }

/-- A value sitting in one slot of `declaredFeatures`.  The field is declared
as `Record<string, {options; meta}>`, but `getFeatures` assigns the raw
parsed response body, whose per-feature records are the merged
`{times, enabled}` shape; both dynamic shapes therefore occur. -/
inductive CachedValue where
  /-- The `{options, meta}` shape of the field's TypeScript declaration
  (the shape the test suite injects directly). -/
  | declaredShape (options : IDeclareFeatureOptions) (meta : IDeclareFeatureMeta)
  /-- The merged `{times, enabled}` shape the service returns: this object
  has no `meta` property. -/
  | composedShape (c : ComposedDeclareFeatureOptions)
deriving DecidableEq, Repr

/-- A parsed JSON document, restricted to the bodies the contract and the
test suite exercise: a string, or a string-keyed map of feature-shaped
records.  `getFeatures` assigns such a document wholesale to the cache. -/
inductive JsonVal where
  | jStr (s : String)
  | jFeatureMap (entries : List (String × CachedValue))
deriving DecidableEq, Repr

/-- A JavaScript runtime failure (a rejected promise). -/
inductive JsError where
  /-- `throw new Error(message)`. -/
  | jsError (message : String)
  /-- A `TypeError` from reading a property of `undefined`
  (`feature.meta.enabled` when `feature` has no `meta`). -/
  | typeError
  /-- `response.json()` rejected because the body is not valid JSON. -/
  | jsonRejected
deriving DecidableEq, Repr

/-- The HTTP response an awaited `fetch` resolves with: `ok`, `status`, the
body as text (for `response.text()`) and as parsed JSON (for
`response.json()`; `none` when the body is not valid JSON, in which case
`response.json()` rejects). -/
structure HttpResponse where
  ok : Bool
  status : Nat
  bodyText : String
  bodyJson : Option JsonVal
deriving DecidableEq, Repr

/-- A GET request issued by `getFeatures`, identified by its full URL. -/
structure GetRequest where
  url : String
deriving DecidableEq, Repr

/-- A POST request issued by `createFeature`: its URL and the fields of the
`JSON.stringify({featureName, privateKey, ...options})` body. -/
structure PostRequest where
  url : String
  featureName : String
  privateKey : String
  times : List IDeclareFeatureTime
deriving DecidableEq, Repr

/-- The manager's mutable fields: `inited`, the `interval` handle (`none`
models `null`; a handle is otherwise truthy) and `declaredFeatures`.  The
constructor state: `inited = false`, `interval = null`, empty cache. -/
structure ManagerState where
  inited : Bool := false
  interval : Option Nat := none
  declaredFeatures : JsonVal := .jFeatureMap []
deriving DecidableEq, Repr

/-- The constructor's initial state. -/
def newManager : ManagerState := {}

/-- The world of scheduled interval timers, as the set of active handles:
`setInterval` registers a handle, `clearInterval` deregisters it, and a tick
of a handle fires only while the handle is registered. -/
structure TimerWorld where
  active : List Nat := []
deriving DecidableEq, Repr

/-- `setInterval`: register a fresh handle. -/
def setIntervalW (w : TimerWorld) (h : Nat) : TimerWorld :=
  { w with active := h :: w.active }

/-- `clearInterval h`: the handle no longer fires. -/
def clearIntervalW (w : TimerWorld) (h : Nat) : TimerWorld :=
  { w with active := w.active.filter (fun x => x ≠ h) }

/-- The polling period of the interval started by `init` (`10_000` ms). -/
def pollPeriodMs : Nat := 10000

/-- `getLocalFeature`: `this.declaredFeatures[featureName]`.  On a map,
an association lookup; on a string, property access by a feature-name key
yields `undefined` (canonical numeric indices, which never name features,
are not modelled). -/
def getLocalFeature (cache : JsonVal) (featureName : String) : Option CachedValue :=
  match cache with
  | .jFeatureMap entries => (entries.find? (fun e => e.1 == featureName)).map Prod.snd
  | .jStr _ => none

/-- `createFeature`.  Without a (truthy) private key it resolves `null`
without touching the network.  Otherwise it POSTs
`{featureName, privateKey, ...options}` to the relative URL
`/v1/sdk/feature/`, throws
`Failed to create feature: {status} - {text}` on a non-ok response, and
resolves with the parsed body on success.  It never assigns to any field,
so the state passes through unchanged. -/
def createFeature (options : IManagerOptions) (st : ManagerState)
    (featureName : String) (declOpts : IDeclareFeatureOptions)
    (resp : HttpResponse) :
    Except JsError (Option JsonVal) × ManagerState × List PostRequest :=
  if jsFalsy options.privateKey then
    (.ok none, st, [])
  else
    let req : PostRequest :=
      { url := "/v1/sdk/feature/", featureName := featureName,
        privateKey := options.privateKey.getD "", times := declOpts.times }
    if resp.ok then
      match resp.bodyJson with
      | some j => (.ok (some j), st, [req])
      | none => (.error .jsonRejected, st, [req])
    else
      (.error (.jsError
        ("Failed to create feature: " ++ toString resp.status ++ " - " ++ resp.bodyText)),
       st, [req])

/-- `declareFeature`: look the name up in the cache; when absent, fire one
unawaited `createFeature(featureName, options)` call.  The second component
lists the `createFeature` invocations triggered (name and options); the
method itself returns nothing, awaits nothing, and writes no field. -/
def declareFeature (st : ManagerState) (featureName : String)
    (options : IDeclareFeatureOptions) :
    ManagerState × List (String × IDeclareFeatureOptions) :=
  match getLocalFeature st.declaredFeatures featureName with
  | some _ => (st, [])
  | none => (st, [(featureName, options)])

/-- `isEnabled`: when the name is absent, fire one unawaited
`createFeature(featureName, {times: []})` call and return `false`; when
present, return `feature.meta.enabled` — which on a server-shaped
`{times, enabled}` record reads `.enabled` off the `undefined` property
`meta` and raises a `TypeError`.  The returned value never depends on any
creation response (the invocation is not awaited), and no field is
written. -/
def isEnabled (st : ManagerState) (featureName : String) :
    Except JsError Bool × ManagerState × List (String × IDeclareFeatureOptions) :=
  match getLocalFeature st.declaredFeatures featureName with
  | none => (.ok false, st, [(featureName, { times := [] })])
  | some (.declaredShape _ m) => (.ok m.enabled, st, [])
  | some (.composedShape _) => (.error .typeError, st, [])

/-- The URL of the read request: the code builds
`new URL('/v1/sdk/feature/', window.location.origin)` and appends the
`publicKey` search parameter (WHATWG encoding is the identity on the
alphanumeric keys in use).  The configured `apiUrl` does not occur here. -/
def getRequestUrl (windowOrigin publicKey : String) : String :=
  windowOrigin ++ "/v1/sdk/feature/?publicKey=" ++ publicKey

/-- The read-request URL as the specification words it:
`{apiUrl}/v1/sdk/feature/?publicKey={publicKey}` with `apiUrl` the
configured base URL, defaulting to `https://api.platform.kybernetix.ru`.
This definition follows the spec, for comparison with `getRequestUrl`,
which follows the source. -/
def specReadRequestUrl (opts : IManagerOptions) (publicKey : String) : String :=
  (mergeOptions opts).apiUrl.getD defaultApiUrl
    ++ "/v1/sdk/feature/?publicKey=" ++ publicKey

/-- `getFeatures`.  Throws `Public key is missing. ...` when the public key
is falsy (before any request).  Otherwise GETs
`{origin}/v1/sdk/feature/?publicKey={pk}`; on a non-ok response while not
yet `inited` it throws `Failed to get features: {status} - {text}`.  In
every other case — including a non-ok response once `inited` — it assigns
`await response.json()` to `declaredFeatures` wholesale (rejecting if the
body is not valid JSON). -/
def getFeatures (options : IManagerOptions) (windowOrigin : String)
    (st : ManagerState) (resp : HttpResponse) :
    Except JsError Unit × ManagerState × List GetRequest :=
  if jsFalsy options.publicKey then
    (.error (.jsError
      "Public key is missing. Please provide a valid publicKey in the SDK configuration."),
     st, [])
  else
    let req : GetRequest := { url := getRequestUrl windowOrigin (options.publicKey.getD "") }
    if !resp.ok && !st.inited then
      (.error (.jsError
        ("Failed to get features: " ++ toString resp.status ++ " - " ++ resp.bodyText)),
       st, [req])
    else
      match resp.bodyJson with
      | some j => (.ok (), { st with declaredFeatures := j }, [req])
      | none => (.error .jsonRejected, st, [req])

/-- `init`: await one `getFeatures` (a rejection propagates, leaving the
state as `getFeatures` left it and starting no timer); on resolution,
start the 10-second interval with a fresh handle and set `inited = true`. -/
def init (options : IManagerOptions) (windowOrigin : String)
    (st : ManagerState) (resp : HttpResponse) (w : TimerWorld) (newHandle : Nat) :
    Except JsError Unit × ManagerState × TimerWorld × List GetRequest :=
  match getFeatures options windowOrigin st resp with
  | (.error e, st1, reqs) => (.error e, st1, w, reqs)
  | (.ok _, st1, reqs) =>
      (.ok (), { st1 with interval := some newHandle, inited := true },
       setIntervalW w newHandle, reqs)

/-- `destroy`: set `inited = false`, `clearInterval(this.interval)` when the
handle is non-null (the field itself is not reset), and clear the cache. -/
def destroy (st : ManagerState) (w : TimerWorld) : ManagerState × TimerWorld :=
  let w1 := match st.interval with
            | some h => clearIntervalW w h
            | none => w
  ({ st with inited := false, declaredFeatures := .jFeatureMap [] }, w1)

/-- One scheduled tick of handle `h`: while `h` is registered it runs
`getFeatures` (its rejection inside the interval callback is unhandled and
dropped); once deregistered it does nothing and issues no request. -/
def tick (options : IManagerOptions) (windowOrigin : String)
    (st : ManagerState) (w : TimerWorld) (h : Nat) (resp : HttpResponse) :
    ManagerState × List GetRequest :=
  if h ∈ w.active then
    let r := getFeatures options windowOrigin st resp
    (r.2.1, r.2.2)
  else (st, [])

/-- Concrete fixture: the 200 response of the example scenario, whose body
is `{featureA: {times: [], enabled: true}}` — a server-shaped record. -/
def c1Resp : HttpResponse :=
  { ok := true, status := 200, bodyText := "",
    bodyJson := some (.jFeatureMap [("featureA", .composedShape { times := [], enabled := true })]) }

/-- Concrete fixture: `init()` of a fresh manager configured with only a
public key, against the example response. -/
def c1Init := init (mergeOptions { publicKey := some "pk" }) "https://test.origin" newManager c1Resp {} 1

/-- Concrete fixture: an already-initialized manager whose cache holds
`featureA` from a previous successful refresh. -/
def c2State : ManagerState :=
  { inited := true, interval := some 1,
    declaredFeatures := .jFeatureMap [("featureA", .composedShape { times := [], enabled := true })] }

/-- Concrete fixture: a post-init refresh of `c2State` that receives a 500
response whose body is the JSON string `"Get error"` (the body the test
suite uses for this case). -/
def c2Run := getFeatures (mergeOptions { publicKey := some "pk" }) "https://test.origin" c2State
  { ok := false, status := 500, bodyText := "Get error", bodyJson := some (.jStr "Get error") }

/-- Concrete fixture: a manager whose cache holds the feature `present`
in the declared `{options, meta}` shape. -/
def c6State : ManagerState :=
  { declaredFeatures := .jFeatureMap
      [("present", .declaredShape { times := [] } { enabled := true })] }

end Kybernetix

namespace Kybernetix

/-- Characterization of `getFeatures` with a falsy public key: it throws
the configuration error before issuing any request, leaving the state
untouched. -/
theorem getFeatures_missing_pk_eq (options : IManagerOptions) (origin : String)
    (st : ManagerState) (resp : HttpResponse)
    (hpk : jsFalsy options.publicKey = true) :
    getFeatures options origin st resp =
      (.error (.jsError
        "Public key is missing. Please provide a valid publicKey in the SDK configuration."),
       st, []) := by
  unfold getFeatures
  simp [hpk]

/-- Characterization of `getFeatures` on a non-ok response while not yet
inited: it throws the service error carrying status and body text, leaving
the state untouched, after issuing the one GET request. -/
theorem getFeatures_bootstrap_reject_eq (options : IManagerOptions) (origin : String)
    (st : ManagerState) (resp : HttpResponse)
    (hpk : jsFalsy options.publicKey = false)
    (hres : (!resp.ok && !st.inited) = true) :
    getFeatures options origin st resp =
      (.error (.jsError
        ("Failed to get features: " ++ toString resp.status ++ " - " ++ resp.bodyText)),
       st, [{ url := getRequestUrl origin (options.publicKey.getD "") }]) := by
  unfold getFeatures
  simp [hpk, hres]

/-- Characterization of `getFeatures` when `response.json()` rejects: the
rejection propagates and the state is untouched. -/
theorem getFeatures_badJson_eq (options : IManagerOptions) (origin : String)
    (st : ManagerState) (resp : HttpResponse)
    (hpk : jsFalsy options.publicKey = false)
    (hres : (!resp.ok && !st.inited) = false)
    (hj : resp.bodyJson = none) :
    getFeatures options origin st resp =
      (.error .jsonRejected, st, [{ url := getRequestUrl origin (options.publicKey.getD "") }]) := by
  unfold getFeatures
  simp [hpk, hres, hj]

/-- Characterization of `getFeatures` in every case that reaches the
assignment (ok response in any phase, or non-ok once inited): it resolves
and replaces the cache wholesale with the parsed body. -/
theorem getFeatures_resolves_eq (options : IManagerOptions) (origin : String)
    (st : ManagerState) (resp : HttpResponse) (j : JsonVal)
    (hpk : jsFalsy options.publicKey = false)
    (hres : (!resp.ok && !st.inited) = false)
    (hj : resp.bodyJson = some j) :
    getFeatures options origin st resp =
      (.ok (), { st with declaredFeatures := j },
       [{ url := getRequestUrl origin (options.publicKey.getD "") }]) := by
  unfold getFeatures
  simp [hpk, hres, hj]

/-- Whenever `getFeatures` resolves, the cache afterwards is exactly the
parsed response body. -/
theorem getFeatures_resolve_cache (options : IManagerOptions) (origin : String)
    (st : ManagerState) (resp : HttpResponse)
    (h : (getFeatures options origin st resp).1 = .ok ()) :
    some (getFeatures options origin st resp).2.1.declaredFeatures = resp.bodyJson := by
  cases hpk : jsFalsy options.publicKey with
  | true => rw [getFeatures_missing_pk_eq options origin st resp hpk] at h; simp at h
  | false =>
    cases hres : (!resp.ok && !st.inited) with
    | true => rw [getFeatures_bootstrap_reject_eq options origin st resp hpk hres] at h; simp at h
    | false =>
      cases hj : resp.bodyJson with
      | none => rw [getFeatures_badJson_eq options origin st resp hpk hres hj] at h; simp at h
      | some j => simp [getFeatures_resolves_eq options origin st resp j hpk hres hj, hj]

/-- Whenever `getFeatures` rejects, the manager state is unchanged. -/
theorem getFeatures_reject_state (options : IManagerOptions) (origin : String)
    (st : ManagerState) (resp : HttpResponse) (e : JsError)
    (h : (getFeatures options origin st resp).1 = .error e) :
    (getFeatures options origin st resp).2.1 = st := by
  cases hpk : jsFalsy options.publicKey with
  | true => rw [getFeatures_missing_pk_eq options origin st resp hpk]
  | false =>
    cases hres : (!resp.ok && !st.inited) with
    | true => rw [getFeatures_bootstrap_reject_eq options origin st resp hpk hres]
    | false =>
      cases hj : resp.bodyJson with
      | none => rw [getFeatures_badJson_eq options origin st resp hpk hres hj]
      | some j => rw [getFeatures_resolves_eq options origin st resp j hpk hres hj] at h; simp at h

/-- Clearing the same interval handle twice equals clearing it once. -/
theorem clearIntervalW_idem (w : TimerWorld) (h : Nat) :
    clearIntervalW (clearIntervalW w h) h = clearIntervalW w h := by
  simp [clearIntervalW, List.filter_filter]

/-- A cleared interval handle is no longer registered. -/
theorem not_mem_clearIntervalW (w : TimerWorld) (h : Nat) :
    h ∉ (clearIntervalW w h).active := by
  simp [clearIntervalW, List.mem_filter]

/-- Claim C1: the claim asserts that after `init()` succeeds with the
service returning `{featureA: {times: [], enabled: true}}`,
`isEnabled("featureA")` returns `true` without failing.  On the code,
`init` does succeed and `featureA` is present in the cache, but the
refreshed entry has the server shape `{times, enabled}` with no `meta`
property, so `feature.meta.enabled` raises a `TypeError` instead of
returning `true`: the code contradicts the declared cache type and the
claim. -/
theorem isEnabled_throws_on_refreshed_entry :
    c1Init.1 = .ok ()
    ∧ (getLocalFeature c1Init.2.1.declaredFeatures "featureA").isSome = true
    ∧ (isEnabled c1Init.2.1 "featureA").1 = .error .typeError :=
  ⟨rfl, rfl, rfl⟩

/-- Claim C2: the claim asserts that a non-success response during a
post-init refresh leaves the cache at its previous value, the body never
being assigned.  On the code the refresh does resolve, but the guard only
skips the `throw`: the assignment `declaredFeatures = await response.json()`
still runs, so the cache becomes the parsed error body (here the string
`"Get error"`), not its previous value. -/
theorem getFeatures_inited_non_ok_assigns_body :
    c2Run.1 = .ok ()
    ∧ c2Run.2.1.declaredFeatures = .jStr "Get error"
    ∧ c2Run.2.1.declaredFeatures ≠ c2State.declaredFeatures :=
  ⟨rfl, rfl, by decide⟩

/-- Claim C3, counterexample: the claim asserts every read request is
issued to `{apiUrl}/v1/sdk/feature/?publicKey={publicKey}` with `apiUrl`
defaulting to `https://api.platform.kybernetix.ru`.  On the code the read
request of a manager left at the default `apiUrl` goes to
`{window.location.origin}/v1/sdk/feature/?...`, which differs from the URL
the claim prescribes. -/
theorem read_url_uses_origin_not_apiUrl_cex :
    (getFeatures (mergeOptions { publicKey := some "test-public-key" }) "https://test.origin"
        newManager c1Resp).2.2
      = [{ url := "https://test.origin/v1/sdk/feature/?publicKey=test-public-key" }]
    ∧ "https://test.origin/v1/sdk/feature/?publicKey=test-public-key"
        ≠ specReadRequestUrl { publicKey := some "test-public-key" } "test-public-key" :=
  ⟨rfl, by decide⟩

/-- Claim C3, amended: every read request is issued to
`{window.location.origin}/v1/sdk/feature/?publicKey={publicKey}` and every
creation request to the relative URL `/v1/sdk/feature/`; the configured
`apiUrl` (default `https://api.platform.kybernetix.ru`) is stored by the
constructor but never used in any request, so both operations are
invariant under changing it. -/
theorem request_urls_origin_and_relative (options : IManagerOptions) (origin : String)
    (st : ManagerState) (resp : HttpResponse) (name : String)
    (declOpts : IDeclareFeatureOptions) :
    (jsFalsy options.publicKey = false →
      (getFeatures options origin st resp).2.2
        = [{ url := getRequestUrl origin (options.publicKey.getD "") }])
    ∧ (jsFalsy options.privateKey = false →
      (createFeature options st name declOpts resp).2.2
        = [{ url := "/v1/sdk/feature/", featureName := name,
             privateKey := options.privateKey.getD "", times := declOpts.times }])
    ∧ (∀ a, getFeatures { options with apiUrl := a } origin st resp
        = getFeatures options origin st resp)
    ∧ (∀ a, createFeature { options with apiUrl := a } st name declOpts resp
        = createFeature options st name declOpts resp) := by
  refine ⟨?_, ?_, ?_, ?_⟩
  · intro hpk
    cases hres : (!resp.ok && !st.inited) with
    | true => rw [getFeatures_bootstrap_reject_eq options origin st resp hpk hres]
    | false =>
      cases hj : resp.bodyJson with
      | none => rw [getFeatures_badJson_eq options origin st resp hpk hres hj]
      | some j => rw [getFeatures_resolves_eq options origin st resp j hpk hres hj]
  · intro hsk
    unfold createFeature
    simp only [hsk, Bool.false_eq_true, if_false]
    cases resp.ok <;> cases resp.bodyJson <;> simp
  · intro a; cases options; rfl
  · intro a; cases options; rfl

/-- Witness for claim C3: the amended theorem applied at concrete
configurations, a read against origin `https://o` with key `pk` and a
creation with private key `sk`. -/
theorem request_urls_origin_and_relative_witness :
    (getFeatures ⟨none, some "pk", none⟩ "https://o" newManager ⟨true, 200, "", some (.jFeatureMap [])⟩).2.2
      = [{ url := getRequestUrl "https://o" "pk" }]
    ∧ (createFeature ⟨none, some "pk", some "sk"⟩ newManager "f" ⟨[]⟩
        ⟨true, 200, "", some (.jFeatureMap [])⟩).2.2
      = [{ url := "/v1/sdk/feature/", featureName := "f", privateKey := "sk", times := [] }] :=
  ⟨(request_urls_origin_and_relative ⟨none, some "pk", none⟩ "https://o" newManager
      ⟨true, 200, "", some (.jFeatureMap [])⟩ "f" ⟨[]⟩).1 rfl,
   (request_urls_origin_and_relative ⟨none, some "pk", some "sk"⟩ "https://o" newManager
      ⟨true, 200, "", some (.jFeatureMap [])⟩ "f" ⟨[]⟩).2.1 rfl⟩

/-- Claim C4: after every refresh that resolves successfully (any phase),
the local cache equals exactly the mapping the service returned — no extra
keys, no missing keys, no surviving stale entries — because the parsed
body is assigned wholesale. -/
theorem getFeatures_success_replaces_cache (options : IManagerOptions) (origin : String)
    (st : ManagerState) (resp : HttpResponse)
    (h : (getFeatures options origin st resp).1 = .ok ()) :
    some (getFeatures options origin st resp).2.1.declaredFeatures = resp.bodyJson :=
  getFeatures_resolve_cache options origin st resp h

/-- Witness for claim C4: a successful refresh of a fresh manager against
a one-feature response leaves the cache equal to that response body. -/
theorem getFeatures_success_replaces_cache_witness :
    some (getFeatures ⟨none, some "pk", none⟩ "https://o" newManager
        ⟨true, 200, "", some (.jFeatureMap [("f", .composedShape { times := [], enabled := true })])⟩).2.1.declaredFeatures
      = some (.jFeatureMap [("f", .composedShape { times := [], enabled := true })]) :=
  getFeatures_success_replaces_cache ⟨none, some "pk", none⟩ "https://o" newManager
    ⟨true, 200, "", some (.jFeatureMap [("f", .composedShape { times := [], enabled := true })])⟩ rfl

/-- Claim C5: when the first refresh (not yet inited) receives a non-success
response, `init()` rejects with the service error carrying the HTTP status
and the response body text, the manager state is unchanged (so `initialized`
remains false and no interval handle is stored) and the timer world is
unchanged (the periodic timer is never started). -/
theorem init_bootstrap_failure_rejects (options : IManagerOptions) (origin : String)
    (st : ManagerState) (resp : HttpResponse) (w : TimerWorld) (newHandle : Nat)
    (hpk : jsFalsy options.publicKey = false)
    (hin : st.inited = false) (hok : resp.ok = false) :
    init options origin st resp w newHandle =
      (.error (.jsError
        ("Failed to get features: " ++ toString resp.status ++ " - " ++ resp.bodyText)),
       st, w, [{ url := getRequestUrl origin (options.publicKey.getD "") }]) := by
  unfold init
  rw [getFeatures_bootstrap_reject_eq options origin st resp hpk (by simp [hok, hin])]

/-- Witness for claim C5: `init()` of a fresh manager against a 500
response with body `Some error` rejects with the exact message and starts
no timer. -/
theorem init_bootstrap_failure_rejects_witness :
    init ⟨none, some "pk", none⟩ "https://o" newManager ⟨false, 500, "Some error", none⟩ ⟨[]⟩ 1
      = (.error (.jsError "Failed to get features: 500 - Some error"), newManager, ⟨[]⟩,
         [{ url := "https://o/v1/sdk/feature/?publicKey=pk" }]) :=
  init_bootstrap_failure_rejects ⟨none, some "pk", none⟩ "https://o" newManager
    ⟨false, 500, "Some error", none⟩ ⟨[]⟩ 1 rfl rfl rfl

/-- Claim C6: `declareFeature(name, options)` triggers no creation call and
leaves the state unchanged when `name` is present in the local cache, and
triggers exactly one creation call carrying exactly that name and those
options when absent. -/
theorem declareFeature_creates_iff_absent (st : ManagerState) (name : String)
    (opts : IDeclareFeatureOptions) :
    (∀ f, getLocalFeature st.declaredFeatures name = some f →
        declareFeature st name opts = (st, []))
    ∧ (getLocalFeature st.declaredFeatures name = none →
        declareFeature st name opts = (st, [(name, opts)])) := by
  constructor
  · intro f hf; simp [declareFeature, hf]
  · intro hf; simp [declareFeature, hf]

/-- Witness for claim C6: on a cache holding `present`, declaring `present`
is a no-op and declaring `absent` triggers one creation call. -/
theorem declareFeature_creates_iff_absent_witness :
    declareFeature c6State "present" { times := [] } = (c6State, [])
    ∧ declareFeature c6State "absent" { times := [] }
        = (c6State, [("absent", { times := [] })]) :=
  ⟨(declareFeature_creates_iff_absent c6State "present" { times := [] }).1
      (.declaredShape { times := [] } { enabled := true }) rfl,
   (declareFeature_creates_iff_absent c6State "absent" { times := [] }).2 rfl⟩

/-- Claim C7: for a name absent from the local cache, `isEnabled(name)`
returns `false` immediately, leaves the state unchanged and triggers
exactly one creation call with options `{times: []}`.  The model of
`isEnabled` takes no creation response at all — the call is not awaited —
so the returned value cannot reflect the outcome of the creation. -/
theorem isEnabled_absent_false_and_one_create (st : ManagerState) (name : String)
    (h : getLocalFeature st.declaredFeatures name = none) :
    isEnabled st name = (.ok false, st, [(name, { times := [] })]) := by
  simp [isEnabled, h]

/-- Witness for claim C7: `isEnabled("featureB")` on a fresh manager. -/
theorem isEnabled_absent_false_and_one_create_witness :
    isEnabled newManager "featureB"
      = (.ok false, newManager, [("featureB", { times := [] })]) :=
  isEnabled_absent_false_and_one_create newManager "featureB" rfl

/-- Claim C8: with no (truthy) private key configured, the internal create
operation issues no HTTP request and resolves to `null`, for every feature
name, options and ambient response. -/
theorem createFeature_without_privateKey_noop (options : IManagerOptions)
    (st : ManagerState) (name : String) (declOpts : IDeclareFeatureOptions)
    (resp : HttpResponse) (h : jsFalsy options.privateKey = true) :
    createFeature options st name declOpts resp = (.ok none, st, []) := by
  simp [createFeature, h]

/-- Witness for claim C8: creation on a manager configured with only a
public key resolves `null` and issues nothing. -/
theorem createFeature_without_privateKey_noop_witness :
    createFeature ⟨none, some "pk", none⟩ newManager "noPrivateKey" ⟨[]⟩
        ⟨true, 200, "", some (.jFeatureMap [])⟩
      = (.ok none, newManager, []) :=
  createFeature_without_privateKey_noop ⟨none, some "pk", none⟩ newManager "noPrivateKey" ⟨[]⟩
    ⟨true, 200, "", some (.jFeatureMap [])⟩ rfl

/-- Claim C9: `destroy()` sets `initialized` to false and clears the local
cache to empty; with no active timer it leaves the timer world untouched
(safe no-op); calling it twice produces the same end state as calling it
once; and after `destroy()` a tick of the manager's interval handle fires
no refresh and issues no read request. -/
theorem destroy_clears_and_idempotent (st : ManagerState) (w : TimerWorld) :
    (destroy st w).1.inited = false
    ∧ (destroy st w).1.declaredFeatures = .jFeatureMap []
    ∧ (st.interval = none → (destroy st w).2 = w)
    ∧ destroy (destroy st w).1 (destroy st w).2 = destroy st w
    ∧ (∀ h options origin resp, st.interval = some h →
        tick options origin (destroy st w).1 (destroy st w).2 h resp
          = ((destroy st w).1, [])) := by
  refine ⟨rfl, rfl, ?_, ?_, ?_⟩
  · intro h; simp [destroy, h]
  · cases hi : st.interval with
    | none => simp [destroy, hi]
    | some h => simp [destroy, hi, clearIntervalW_idem]
  · intro h o origin resp hi
    have hnm : h ∉ ((destroy st w).2).active := by
      simp only [destroy, hi]
      exact not_mem_clearIntervalW w h
    simp [tick, hnm]

/-- Witness for claim C9: destroying a manager whose interval handle is `5`
while handle `5` is scheduled; also the no-op case with no handle. -/
theorem destroy_clears_and_idempotent_witness :
    (destroy ⟨true, some 5, .jFeatureMap []⟩ ⟨[5]⟩).1.inited = false
    ∧ (destroy ⟨true, none, .jFeatureMap []⟩ ⟨[]⟩).2 = ⟨[]⟩
    ∧ tick ⟨none, some "pk", none⟩ "https://o"
        (destroy ⟨true, some 5, .jFeatureMap []⟩ ⟨[5]⟩).1
        (destroy ⟨true, some 5, .jFeatureMap []⟩ ⟨[5]⟩).2 5 ⟨true, 200, "", none⟩
      = ((destroy ⟨true, some 5, .jFeatureMap []⟩ ⟨[5]⟩).1, []) :=
  ⟨(destroy_clears_and_idempotent ⟨true, some 5, .jFeatureMap []⟩ ⟨[5]⟩).1,
   (destroy_clears_and_idempotent ⟨true, none, .jFeatureMap []⟩ ⟨[]⟩).2.2.1 rfl,
   (destroy_clears_and_idempotent ⟨true, some 5, .jFeatureMap []⟩ ⟨[5]⟩).2.2.2.2
     5 ⟨none, some "pk", none⟩ "https://o" ⟨true, 200, "", none⟩ rfl⟩

/-- Claim C10: `declareFeature`, `isEnabled` and the internal create
operation never write the local cache (the whole manager state passes
through unchanged); the cache changes only through a refresh that resolves
(wholesale replacement by the response body — a rejected refresh leaves it
unchanged) or through `destroy` (clear).  Consequently, while a name is
absent, every repeated `isEnabled`/`declareFeature` call — not only the
first — triggers a fresh creation call with the same arguments. -/
theorem cache_writes_only_refresh_and_destroy (options : IManagerOptions)
    (origin : String) (st : ManagerState) (w : TimerWorld) (name : String)
    (declOpts : IDeclareFeatureOptions) (resp : HttpResponse) :
    (declareFeature st name declOpts).1 = st
    ∧ (isEnabled st name).2.1 = st
    ∧ (createFeature options st name declOpts resp).2.1 = st
    ∧ (∀ e, (getFeatures options origin st resp).1 = .error e →
        (getFeatures options origin st resp).2.1 = st)
    ∧ ((getFeatures options origin st resp).1 = .ok () →
        some (getFeatures options origin st resp).2.1.declaredFeatures = resp.bodyJson)
    ∧ (destroy st w).1.declaredFeatures = .jFeatureMap []
    ∧ (getLocalFeature st.declaredFeatures name = none →
        (isEnabled st name).2.2 = [(name, { times := [] })]
        ∧ isEnabled (isEnabled st name).2.1 name = isEnabled st name
        ∧ (declareFeature st name declOpts).2 = [(name, declOpts)]
        ∧ declareFeature (declareFeature st name declOpts).1 name declOpts
            = declareFeature st name declOpts) := by
  refine ⟨?_, ?_, ?_, ?_, ?_, rfl, ?_⟩
  · unfold declareFeature
    cases hx : getLocalFeature st.declaredFeatures name <;> simp [hx]
  · unfold isEnabled
    cases hx : getLocalFeature st.declaredFeatures name with
    | none => simp [hx]
    | some v => cases v <;> simp [hx]
  · unfold createFeature
    cases hsk : jsFalsy options.privateKey with
    | true => simp [hsk]
    | false =>
      simp only [hsk, Bool.false_eq_true, if_false]
      cases resp.ok <;> cases resp.bodyJson <;> simp
  · intro e he; exact getFeatures_reject_state options origin st resp e he
  · intro h; exact getFeatures_resolve_cache options origin st resp h
  · intro habs
    have h1 : (isEnabled st name).2.1 = st := by simp [isEnabled, habs]
    have h2 : (declareFeature st name declOpts).1 = st := by simp [declareFeature, habs]
    refine ⟨by simp [isEnabled, habs], ?_, by simp [declareFeature, habs], ?_⟩
    · rw [h1]
    · rw [h2]

/-- Witness for claim C10: on a fresh manager the unknown name `x` leaves
the state unchanged and repeated `isEnabled` calls behave identically,
each triggering one creation call. -/
theorem cache_writes_only_refresh_and_destroy_witness :
    (isEnabled newManager "x").2.1 = newManager
    ∧ (isEnabled newManager "x").2.2 = [("x", { times := [] })]
    ∧ isEnabled (isEnabled newManager "x").2.1 "x" = isEnabled newManager "x" :=
  ⟨(cache_writes_only_refresh_and_destroy ⟨none, some "pk", none⟩ "https://o" newManager ⟨[]⟩
      "x" ⟨[]⟩ ⟨true, 200, "", none⟩).2.1,
   ((cache_writes_only_refresh_and_destroy ⟨none, some "pk", none⟩ "https://o" newManager ⟨[]⟩
      "x" ⟨[]⟩ ⟨true, 200, "", none⟩).2.2.2.2.2.2 rfl).1,
   ((cache_writes_only_refresh_and_destroy ⟨none, some "pk", none⟩ "https://o" newManager ⟨[]⟩
      "x" ⟨[]⟩ ⟨true, 200, "", none⟩).2.2.2.2.2.2 rfl).2.1⟩

end Kybernetix
